import Mathlib

/-!
Verification of the embedding-service request layer
(`meanderings/embedding-service/main.py`).

The service is a FastAPI application with two middlewares (bearer-token
authentication and CORS header injection), four routes (`GET /health`,
`POST /embed`, `POST /embed/batch`, `GET /model/info`) and a catch-all
`OPTIONS` route.  The sentence-transformers model is an external
black-box; it is represented here as a record of (fallible) encode
functions, and the handlers are translated statement by statement from
the Python source.
-/

/-- An embedding vector: an ordered sequence of floating-point numbers
(`embedding.tolist()` in the source).  The development never computes
with the scalars, only with the list structure. -/
abbrev EmbeddingVector := List Float

/-- The external sentence-transformers model (`SentenceTransformer`),
specified only at its interface boundary: `model.encode` called with a
single string or with a list of strings, either returning a result or
raising an exception (modelled as `Except.error` with the exception
message `str(e)`). -/
structure EmbModel where
  encode : String → Except String EmbeddingVector
  encodeBatch : List String → Except String (List EmbeddingVector)

/-- Process-wide configuration fixed at startup:
`AUTH_TOKEN = os.getenv("EMBEDDING_AUTH_TOKEN")`, which is `None` when
the variable is unset. -/
structure Config where
  authToken : Option String

/-- Process-wide mutable state: the global `model` variable, `None`
until the lifespan startup assigns the loaded model. -/
structure ServiceState where
  model : Option EmbModel

/-- `MODEL_NAME = "intfloat/multilingual-e5-large"`. -/
def MODEL_NAME : String := "intfloat/multilingual-e5-large"

/-- The JSON body of a response, one constructor per body shape the
source can produce. -/
inductive Body
  /-- `{"error": msg}` — produced by the auth middleware. -/
  | errorJson (msg : String)
  /-- `{"detail": msg}` — produced by FastAPI for `HTTPException`. -/
  | detailJson (msg : String)
  /-- FastAPI's request-validation error body (422, structured detail list). -/
  | validationJson
  /-- `HealthResponse {status, service, model, dimensions}`. -/
  | healthJson (status service model : String) (dimensions : Nat)
  /-- `EmbedResponse {embedding, dimensions, model}`. -/
  | embedJson (embedding : EmbeddingVector) (dimensions : Nat) (model : String)
  /-- `EmbedBatchResponse {embeddings, dimensions, model}`. -/
  | batchJson (embeddings : List EmbeddingVector) (dimensions : Nat) (model : String)
  /-- `ModelInfoResponse {name, dimensions, loaded, languages}`. -/
  | infoJson (name : String) (dimensions : Nat) (loaded : Bool) (languages : String)
  /-- `{}` — the body of the OPTIONS handler's `JSONResponse(content={})`. -/
  | emptyJson
  /-- FastAPI's default body for an unmatched route. -/
  | notFoundJson
deriving Repr

/-- An HTTP response: status code, headers (a string-keyed map, modelled
as a lookup function), and JSON body. -/
structure Response where
  status : Nat
  headers : String → Option String
  body : Body

/-- A fresh response carries no headers of interest (the middlewares add
theirs afterwards). -/
def noHeaders : String → Option String := fun _ => none

/-- The request body, as FastAPI would parse it against the declared
pydantic request model: either absent, a `{"text": ...}` object, or a
`{"texts": [...]}` object.  Any other payload fails validation. -/
inductive ReqBody
  | noBody
  | textBody (text : String)
  | textsBody (texts : List String)
deriving Repr, DecidableEq

/-- An inbound HTTP request: method, path, the `Authorization` header
(`request.headers.get("Authorization")`), and the parsed body. -/
structure Request where
  method : String
  path : String
  authorization : Option String
  body : ReqBody

/-- Pydantic validation of `EmbedRequest.text`:
`Field(..., min_length=1)` — at least one character.  Whitespace is not
stripped by this constraint. -/
def validEmbedText (text : String) : Bool := 1 ≤ text.length

/-- Pydantic validation of `EmbedBatchRequest.texts`:
`Field(..., min_items=1)` — at least one element.  The elements
themselves are unconstrained. -/
def validEmbedTexts (texts : List String) : Bool := 1 ≤ texts.length

/-- The auth middleware's rejection:
`JSONResponse(status_code=401, content={"error": "Unauthorized"})`. -/
def unauthorizedResponse : Response :=
  { status := 401, headers := noHeaders, body := .errorJson "Unauthorized" }

/-- FastAPI's 422 response when a request body fails pydantic validation. -/
def validationErrorResponse : Response :=
  { status := 422, headers := noHeaders, body := .validationJson }

/-- FastAPI's default response for a route that matches nothing. -/
def notFoundResponse : Response :=
  { status := 404, headers := noHeaders, body := .notFoundJson }

/-- `GET /health` handler: returns a fixed `HealthResponse` — the
status string is the literal `"healthy"`, the dimensions the literal
`1024`; the handler does not read the model state. -/
def health (_st : ServiceState) : Response :=
  { status := 200, headers := noHeaders
    body := .healthJson "healthy" "embedding-service" MODEL_NAME 1024 }

/-- `POST /embed` handler: 503 when the global model is `None`;
otherwise `model.encode(request.text)`, wrapped with its length and the
model name on success, or a 500 `HTTPException` whose detail prefixes
the exception message on failure. -/
def embed (st : ServiceState) (text : String) : Response :=
  match st.model with
  | none => { status := 503, headers := noHeaders, body := .detailJson "Model not loaded" }
  | some m =>
    match m.encode text with
    | .ok embedding =>
        { status := 200, headers := noHeaders
          body := .embedJson embedding embedding.length MODEL_NAME }
    | .error e =>
        { status := 500, headers := noHeaders
          body := .detailJson ("Failed to generate embedding: " ++ e) }

/-- `len(embeddings_list[0]) if embeddings_list else 0` — the
dimensionality reported by the batch handler. -/
def batchDimensions (embeddings : List EmbeddingVector) : Nat :=
  match embeddings with
  | [] => 0
  | v :: _ => v.length

/-- `POST /embed/batch` handler: 503 when the global model is `None`;
otherwise one `model.encode(request.texts)` call, wrapped with the
dimensionality of the first vector (0 when the result is empty) and the
model name, or a 500 `HTTPException` on failure. -/
def embed_batch (st : ServiceState) (texts : List String) : Response :=
  match st.model with
  | none => { status := 503, headers := noHeaders, body := .detailJson "Model not loaded" }
  | some m =>
    match m.encodeBatch texts with
    | .ok embeddings =>
        { status := 200, headers := noHeaders
          body := .batchJson embeddings (batchDimensions embeddings) MODEL_NAME }
    | .error e =>
        { status := 500, headers := noHeaders
          body := .detailJson ("Failed to generate embeddings: " ++ e) }

/-- `GET /model/info` handler: always succeeds, reporting the model
name, the literal dimensions `1024`, `loaded = (model is not None)` and
the languages string. -/
def model_info (st : ServiceState) : Response :=
  { status := 200, headers := noHeaders
    body := .infoJson MODEL_NAME 1024 st.model.isSome "100+" }

/-- `OPTIONS /\x7bpath:path\x7d` handler:
`JSONResponse(content={}, status_code=204)`. -/
def options_handler : Response :=
  { status := 204, headers := noHeaders, body := .emptyJson }

/-- FastAPI route dispatch, after the middlewares and after body
validation against the route's pydantic request model.  The only
`OPTIONS` route is the catch-all, so `OPTIONS` to any path reaches
`options_handler`; a request matching no route gets the framework
default. -/
def routeRequest (st : ServiceState) (req : Request) : Response :=
  if req.method = "OPTIONS" then options_handler
  else if req.method = "GET" ∧ req.path = "/health" then health st
  else if req.method = "POST" ∧ req.path = "/embed" then
    match req.body with
    | .textBody t => if validEmbedText t then embed st t else validationErrorResponse
    | _ => validationErrorResponse
  else if req.method = "POST" ∧ req.path = "/embed/batch" then
    match req.body with
    | .textsBody ts => if validEmbedTexts ts then embed_batch st ts else validationErrorResponse
    | _ => validationErrorResponse
  else if req.method = "GET" ∧ req.path = "/model/info" then model_info st
  else notFoundResponse

/-- The authentication middleware, translated clause by clause:
skip for `/health`; skip when `not AUTH_TOKEN` (unset or empty string);
otherwise reject with `unauthorizedResponse` unless the `Authorization`
header is present, truthy, and exactly `"Bearer " + AUTH_TOKEN`. -/
def auth_middleware (cfg : Config) (next : Request → Response) (req : Request) : Response :=
  if req.path = "/health" then next req
  else
    match cfg.authToken with
    | none => next req
    | some t =>
      if t = "" then next req
      else
        match req.authorization with
        | none => unauthorizedResponse
        | some h =>
          if h ≠ "" ∧ h = "Bearer " ++ t then next req else unauthorizedResponse

/-- Header assignment `response.headers[k] = v` on a string-keyed map. -/
def setHeader (hs : String → Option String) (k v : String) : String → Option String :=
  fun k' => if k' = k then some v else hs k'

/-- The three header assignments of the CORS middleware, in source
order. -/
def corsHeaders (hs : String → Option String) : String → Option String :=
  setHeader
    (setHeader
      (setHeader hs "Access-Control-Allow-Origin" "*")
      "Access-Control-Allow-Methods" "GET, POST, OPTIONS")
    "Access-Control-Allow-Headers" "Content-Type, Authorization"

/-- The CORS middleware: runs the rest of the pipeline, then sets the
three `Access-Control-Allow-*` headers on whatever response came back. -/
def cors_middleware (next : Request → Response) (req : Request) : Response :=
  let r := next req
  { r with headers := corsHeaders r.headers }

/-- The whole application: middlewares added with `@app.middleware` run
outermost-last-added, so the CORS middleware wraps the auth middleware,
which wraps route dispatch. -/
def handleRequest (cfg : Config) (st : ServiceState) (req : Request) : Response :=
  cors_middleware (auth_middleware cfg (routeRequest st)) req

/-- The `loaded` field of a `ModelInfoResponse` body, when the body has
that shape. -/
def Body.infoLoaded : Body → Option Bool
  | .infoJson _ _ loaded _ => some loaded
  | _ => none

/-- The `dimensions` field of a `ModelInfoResponse` body. -/
def Body.infoDims : Body → Option Nat
  | .infoJson _ d _ _ => some d
  | _ => none

/-- The `embeddings` field of an `EmbedBatchResponse` body. -/
def Body.batchEmbeddings : Body → Option (List EmbeddingVector)
  | .batchJson vs _ _ => some vs
  | _ => none

/-- The `dimensions` field of an `EmbedBatchResponse` body. -/
def Body.batchDims : Body → Option Nat
  | .batchJson _ d _ => some d
  | _ => none

/-- Open configuration: `EMBEDDING_AUTH_TOKEN` unset. -/
def openCfg : Config := ⟨none⟩

/-- A `POST /embed` request with no credential and the given text. -/
def embedReq (t : String) : Request := ⟨"POST", "/embed", none, .textBody t⟩

/-- A `POST /embed/batch` request with no credential and the given texts. -/
def batchReq (ts : List String) : Request := ⟨"POST", "/embed/batch", none, .textsBody ts⟩

/-- A `GET /health` request with no credential. -/
def healthReq : Request := ⟨"GET", "/health", none, .noBody⟩

/-- A `GET /model/info` request with no credential. -/
def infoReq : Request := ⟨"GET", "/model/info", none, .noBody⟩

/-- A stand-in loaded model whose encode always succeeds with a
1024-dimensional zero vector per input, used to instantiate theorems at
concrete states. -/
def constModel : EmbModel :=
  { encode := fun _ => .ok (List.replicate 1024 0.0)
    encodeBatch := fun ts => .ok (ts.map fun _ => List.replicate 1024 0.0) }

/-- A stand-in loaded model whose encode always raises. -/
def failingModel : EmbModel :=
  { encode := fun _ => .error "boom"
    encodeBatch := fun _ => .error "boom" }

/-- A stand-in loaded model whose batch encode returns an empty result
sequence, exercising the empty-result guard of the batch handler. -/
def emptyBatchModel : EmbModel :=
  { encode := fun _ => .ok []
    encodeBatch := fun _ => .ok [] }

/-! ## Helper lemmas -/

/-- A bearer credential built from any token is a non-empty string. -/
lemma bearer_ne_empty (t : String) : "Bearer " ++ t ≠ "" := by
  intro h
  have h2 : ("Bearer " ++ t).length = 0 := by rw [h]; rfl
  rw [String.length_append] at h2
  have h7 : "Bearer ".length = 7 := rfl
  omega

/-- The CORS middleware changes only the headers of the inner response. -/
lemma handleRequest_status_eq (cfg : Config) (st : ServiceState) (req : Request) :
    (handleRequest cfg st req).status = (auth_middleware cfg (routeRequest st) req).status := rfl

/-- The CORS middleware changes only the headers of the inner response. -/
lemma handleRequest_body_eq (cfg : Config) (st : ServiceState) (req : Request) :
    (handleRequest cfg st req).body = (auth_middleware cfg (routeRequest st) req).body := rfl

/-- With no token configured the auth middleware is a no-op. -/
lemma auth_open (next : Request → Response) (req : Request) :
    auth_middleware openCfg next req = next req := by
  unfold auth_middleware openCfg
  split <;> rfl

/-- Under the open configuration the response status is the router's. -/
lemma handleRequest_open_status (st : ServiceState) (req : Request) :
    (handleRequest openCfg st req).status = (routeRequest st req).status := by
  rw [handleRequest_status_eq, auth_open]

/-- Under the open configuration the response body is the router's. -/
lemma handleRequest_open_body (st : ServiceState) (req : Request) :
    (handleRequest openCfg st req).body = (routeRequest st req).body := by
  rw [handleRequest_body_eq, auth_open]

/-- A schema-valid `POST /embed` request reaches the `embed` handler. -/
lemma route_embed_valid (st : ServiceState) (t : String) (ht : validEmbedText t = true) :
    routeRequest st (embedReq t) = embed st t := by
  simp [routeRequest, embedReq, ht]

/-- A schema-valid `POST /embed/batch` request reaches the `embed_batch`
handler. -/
lemma route_batch_valid (st : ServiceState) (ts : List String)
    (hts : validEmbedTexts ts = true) :
    routeRequest st (batchReq ts) = embed_batch st ts := by
  simp [routeRequest, batchReq, hts]

/-- `GET /health` reaches the `health` handler. -/
lemma route_health (st : ServiceState) : routeRequest st healthReq = health st := by
  simp [routeRequest, healthReq]

/-- `GET /model/info` reaches the `model_info` handler. -/
lemma route_info (st : ServiceState) : routeRequest st infoReq = model_info st := by
  simp [routeRequest, infoReq]

/-- A non-empty list of texts passes the batch schema validation. -/
lemma validEmbedTexts_of_ne_nil (ts : List String) (h : ts ≠ []) :
    validEmbedTexts ts = true := by
  cases ts with
  | nil => exact absurd rfl h
  | cons a l => simp [validEmbedTexts]

/-! ## Claims -/

/-- C1: the auth middleware admits every request to the health path; it
admits every request when no token is configured (`AUTH_TOKEN` unset, or
set to the empty string, which Python treats as falsy); with a non-empty
token configured and the path not the health path, it admits exactly the
requests presenting the credential `"Bearer " ++ token`, and on any
other credential (absent, empty, or mismatched) it returns the
structured 401 Unauthorized response without invoking the downstream
handler (the result is `unauthorizedResponse` for every `next`). -/
theorem auth_gate_contract (cfg : Config) (next : Request → Response) (req : Request) :
    (req.path = "/health" → auth_middleware cfg next req = next req)
    ∧ (cfg.authToken = none → auth_middleware cfg next req = next req)
    ∧ (cfg.authToken = some "" → auth_middleware cfg next req = next req)
    ∧ (∀ t, cfg.authToken = some t → t ≠ "" → req.path ≠ "/health" →
        ((req.authorization = some ("Bearer " ++ t) → auth_middleware cfg next req = next req)
        ∧ (req.authorization ≠ some ("Bearer " ++ t) →
            auth_middleware cfg next req = unauthorizedResponse
            ∧ unauthorizedResponse.status = 401))) := by
  refine ⟨?_, ?_, ?_, ?_⟩
  · intro h; simp [auth_middleware, h]
  · intro h; unfold auth_middleware; rw [h]; split <;> rfl
  · intro h; unfold auth_middleware; rw [h]; split <;> rfl
  · intro t ht hte hp
    constructor
    · intro ha
      simp [auth_middleware, hp, ht, hte, ha, bearer_ne_empty]
    · intro ha
      refine ⟨?_, rfl⟩
      unfold auth_middleware
      rw [if_neg hp, ht]
      dsimp only
      rw [if_neg hte]
      cases hh : req.authorization with
      | none => rfl
      | some h =>
        dsimp only
        rw [if_neg]
        rintro ⟨-, rfl⟩
        exact ha hh

/-- C1 witness: with token `"S"` configured, a `POST /embed` request
with no credential is rejected with the structured 401 response. -/
theorem auth_gate_contract_witness :
    auth_middleware ⟨some "S"⟩ (fun _ => notFoundResponse) ⟨"POST", "/embed", none, .noBody⟩
      = unauthorizedResponse ∧ unauthorizedResponse.status = 401 :=
  ((auth_gate_contract ⟨some "S"⟩ (fun _ => notFoundResponse)
      ⟨"POST", "/embed", none, .noBody⟩).2.2.2 "S" rfl (by decide) (by decide)).2 (by decide)

/-- C8: every response of the application — for every configuration,
model state, method, path, credential and body, hence also the 401
rejection produced by the auth gate — carries the three permissive CORS
headers, because the CORS middleware is outermost and sets them on
whatever response comes back. -/
theorem cors_headers_on_every_response (cfg : Config) (st : ServiceState) (req : Request) :
    (handleRequest cfg st req).headers "Access-Control-Allow-Origin" = some "*"
    ∧ (handleRequest cfg st req).headers "Access-Control-Allow-Methods"
        = some "GET, POST, OPTIONS"
    ∧ (handleRequest cfg st req).headers "Access-Control-Allow-Headers"
        = some "Content-Type, Authorization" := by
  refine ⟨?_, ?_, ?_⟩ <;> rfl

/-- C2 counterexample: with the model not loaded, a `POST /embed`
request whose body fails schema validation (empty text) returns 422,
not 503 — so not *every* request to `/embed` returns ServiceUnavailable
while the model is unloaded. -/
theorem readiness_claim_counterexample :
    (handleRequest openCfg ⟨none⟩ (embedReq "")).status = 422
    ∧ (handleRequest openCfg ⟨none⟩ (embedReq "")).status ≠ 503 :=
  ⟨rfl, by decide⟩

/-- C2 (amended): with the model not loaded, every *admitted,
schema-valid* request to `/embed` and `/embed/batch` returns 503, while
`/health` and `/model/info` answer 200 and `/model/info` reports
`loaded = false`; once the model is loaded the readiness gate admits
all handlers — neither embedding endpoint can return 503, and
`/model/info` reports `loaded = true`. -/
theorem readiness_contract (m : EmbModel) (t : String) (texts : List String)
    (ht : validEmbedText t = true) (hts : validEmbedTexts texts = true) :
    (handleRequest openCfg ⟨none⟩ (embedReq t)).status = 503
    ∧ (handleRequest openCfg ⟨none⟩ (batchReq texts)).status = 503
    ∧ (handleRequest openCfg ⟨none⟩ healthReq).status = 200
    ∧ (handleRequest openCfg ⟨none⟩ infoReq).status = 200
    ∧ (handleRequest openCfg ⟨none⟩ infoReq).body.infoLoaded = some false
    ∧ (handleRequest openCfg ⟨some m⟩ (embedReq t)).status ≠ 503
    ∧ (handleRequest openCfg ⟨some m⟩ (batchReq texts)).status ≠ 503
    ∧ (handleRequest openCfg ⟨some m⟩ infoReq).body.infoLoaded = some true := by
  refine ⟨?_, ?_, ?_, ?_, ?_, ?_, ?_, ?_⟩
  · rw [handleRequest_open_status, route_embed_valid _ _ ht]; rfl
  · rw [handleRequest_open_status, route_batch_valid _ _ hts]; rfl
  · rw [handleRequest_open_status, route_health]; rfl
  · rw [handleRequest_open_status, route_info]; rfl
  · rw [handleRequest_open_body, route_info]; rfl
  · rw [handleRequest_open_status, route_embed_valid _ _ ht]
    unfold embed
    cases he : m.encode t <;> simp [he]
  · rw [handleRequest_open_status, route_batch_valid _ _ hts]
    unfold embed_batch
    cases he : m.encodeBatch texts <;> simp [he]
  · rw [handleRequest_open_body, route_info]; rfl

/-- C2 witness: instantiated at the stand-in loaded model, the text
`"hi"` and the batch `["a"]`; the unloaded embed endpoint answers 503. -/
theorem readiness_contract_witness :
    (handleRequest openCfg ⟨none⟩ (embedReq "hi")).status = 503 :=
  (readiness_contract constModel "hi" ["a"] (by decide) (by decide)).1

/-- C4 counterexample: with token `"secret"` configured, an `OPTIONS`
request to `/embed` carrying no credential is rejected by the auth
middleware with 401 — it does not return the 204 preflight response, so
`OPTIONS` is not exempt from the auth gate. -/
theorem options_auth_counterexample :
    (handleRequest ⟨some "secret"⟩ ⟨none⟩ ⟨"OPTIONS", "/embed", none, .noBody⟩).status = 401
    ∧ (handleRequest ⟨some "secret"⟩ ⟨none⟩ ⟨"OPTIONS", "/embed", none, .noBody⟩).status ≠ 204 :=
  ⟨rfl, by decide⟩

/-- C4 (amended): an `OPTIONS` request to any path returns the
204 empty-JSON preflight response whenever the auth gate admits it —
that is, when the path is the health path, when no token is configured
(unset or empty), or when the correct bearer credential is presented;
but with a non-empty token configured, an `OPTIONS` request to a
non-health path with an absent or wrong credential is rejected with the
401 Unauthorized response: `OPTIONS` is not exempt from the auth gate. -/
theorem options_preflight_contract (cfg : Config) (st : ServiceState) (req : Request)
    (hm : req.method = "OPTIONS") :
    ((req.path = "/health" ∨ cfg.authToken = none ∨ cfg.authToken = some ""
        ∨ (∃ t, cfg.authToken = some t ∧ req.authorization = some ("Bearer " ++ t))) →
      (handleRequest cfg st req).status = 204
      ∧ (handleRequest cfg st req).body = .emptyJson)
    ∧ (∀ t, cfg.authToken = some t → t ≠ "" → req.path ≠ "/health" →
        req.authorization ≠ some ("Bearer " ++ t) →
        (handleRequest cfg st req).status = 401
        ∧ (handleRequest cfg st req).body = .errorJson "Unauthorized") := by
  have hroute : routeRequest st req = options_handler := by
    unfold routeRequest; rw [if_pos hm]
  have hadmit : ∀ hnext : auth_middleware cfg (routeRequest st) req = routeRequest st req,
      (handleRequest cfg st req).status = 204 ∧ (handleRequest cfg st req).body = .emptyJson := by
    intro hnext
    rw [handleRequest_status_eq, handleRequest_body_eq, hnext, hroute]
    exact ⟨rfl, rfl⟩
  constructor
  · rintro (hp | hn | he | ⟨t, ht, ha⟩)
    · exact hadmit ((auth_gate_contract cfg (routeRequest st) req).1 hp)
    · exact hadmit ((auth_gate_contract cfg (routeRequest st) req).2.1 hn)
    · exact hadmit ((auth_gate_contract cfg (routeRequest st) req).2.2.1 he)
    · by_cases hp : req.path = "/health"
      · exact hadmit ((auth_gate_contract cfg (routeRequest st) req).1 hp)
      · by_cases hte : t = ""
        · exact hadmit ((auth_gate_contract cfg (routeRequest st) req).2.2.1 (hte ▸ ht))
        · exact hadmit
            (((auth_gate_contract cfg (routeRequest st) req).2.2.2 t ht hte hp).1 ha)
  · intro t ht hte hp ha
    have hrej :=
      (((auth_gate_contract cfg (routeRequest st) req).2.2.2 t ht hte hp).2 ha).1
    rw [handleRequest_status_eq, handleRequest_body_eq, hrej]
    exact ⟨rfl, rfl⟩

/-- C4 witness: with no token configured, `OPTIONS /embed` without a
credential answers 204 with the empty JSON body. -/
theorem options_preflight_contract_witness :
    (handleRequest openCfg ⟨none⟩ ⟨"OPTIONS", "/embed", none, .noBody⟩).status = 204
    ∧ (handleRequest openCfg ⟨none⟩ ⟨"OPTIONS", "/embed", none, .noBody⟩).body = .emptyJson :=
  (options_preflight_contract openCfg ⟨none⟩ ⟨"OPTIONS", "/embed", none, .noBody⟩ rfl).1
    (Or.inr (Or.inl rfl))

/-- C5 counterexample: the whitespace-only text `" "` passes the
`min_length=1` validation and, with a loaded model, `POST /embed`
answers 200 — the service does not reject whitespace-only text as a
client error. -/
theorem whitespace_admitted_counterexample :
    validEmbedText " " = true
    ∧ (handleRequest openCfg ⟨some constModel⟩ (embedReq " ")).status = 200 :=
  ⟨rfl, rfl⟩

/-- C5 (amended): `POST /embed` with the empty text and
`POST /embed/batch` with the empty sequence are rejected by schema
validation with a structured 422 client-error response before the
handler (and hence any computation) runs, whatever the model state;
whitespace-only text, however, passes validation — only emptiness is
checked, not content. -/
theorem input_validation_contract (st : ServiceState) :
    (handleRequest openCfg st (embedReq "")).status = 422
    ∧ (handleRequest openCfg st (embedReq "")).body = .validationJson
    ∧ (handleRequest openCfg st (batchReq [])).status = 422
    ∧ (handleRequest openCfg st (batchReq [])).body = .validationJson
    ∧ validEmbedText " " = true :=
  ⟨rfl, rfl, rfl, rfl, rfl⟩

/-- C6 counterexample: the health body is the same fixed
`HealthResponse` with status string `"healthy"` whether the model is
unloaded or loaded — the reported health status is a stored constant,
not derived from the current model state. -/
theorem health_status_constant_counterexample :
    (handleRequest openCfg ⟨none⟩ healthReq).body
        = .healthJson "healthy" "embedding-service" MODEL_NAME 1024
    ∧ (handleRequest openCfg ⟨some constModel⟩ healthReq).body
        = .healthJson "healthy" "embedding-service" MODEL_NAME 1024 :=
  ⟨rfl, rfl⟩

/-- C6 (amended): `GET /health` always returns 200 with the
`{status, service, model, dimensions}` body, for every configuration,
credential and model state; the status field is the fixed constant
`"healthy"`, independent of the model state. -/
theorem health_contract (cfg : Config) (st : ServiceState) (auth : Option String) :
    (handleRequest cfg st ⟨"GET", "/health", auth, .noBody⟩).status = 200
    ∧ (handleRequest cfg st ⟨"GET", "/health", auth, .noBody⟩).body
        = .healthJson "healthy" "embedding-service" MODEL_NAME 1024 :=
  ⟨rfl, rfl⟩

/-- C3: with the model loaded and its batched encode succeeding on a
non-empty sequence of N texts — producing, per the model-holder
interface contract, one vector per text in input order
(`vs = texts.map f`) with the reference dimensionality 1024 — the batch
endpoint answers 200 and returns exactly those N vectors unchanged:
as many vectors as texts, vector i corresponding to text i, each of
length equal to the dimensionality reported by `/model/info`. -/
theorem embed_batch_order_and_dims (m : EmbModel) (f : String → EmbeddingVector)
    (texts : List String) (hne : texts ≠ [])
    (henc : m.encodeBatch texts = Except.ok (texts.map f))
    (hdim : ∀ s, (f s).length = 1024) :
    (handleRequest openCfg ⟨some m⟩ (batchReq texts)).status = 200
    ∧ (handleRequest openCfg ⟨some m⟩ (batchReq texts)).body.batchEmbeddings
        = some (texts.map f)
    ∧ (texts.map f).length = texts.length
    ∧ (∀ i : Nat, (texts.map f)[i]? = Option.map f texts[i]?)
    ∧ ∀ v ∈ texts.map f, (model_info ⟨some m⟩).body.infoDims = some v.length := by
  have hts : validEmbedTexts texts = true := validEmbedTexts_of_ne_nil texts hne
  refine ⟨?_, ?_, ?_, ?_, ?_⟩
  · rw [handleRequest_open_status, route_batch_valid _ _ hts]
    simp [embed_batch, henc]
  · rw [handleRequest_open_body, route_batch_valid _ _ hts]
    simp [embed_batch, henc, Body.batchEmbeddings]
  · simp
  · intro i; simp
  · intro v hv
    obtain ⟨s, hs, rfl⟩ := List.mem_map.1 hv
    simp [model_info, Body.infoDims, hdim]

/-- C3 witness: the stand-in model on the batch `["a"]` yields one
1024-dimensional vector and a 200 response. -/
theorem embed_batch_order_and_dims_witness :
    (handleRequest openCfg ⟨some constModel⟩ (batchReq ["a"])).status = 200 :=
  (embed_batch_order_and_dims constModel (fun _ => List.replicate 1024 0.0) ["a"]
    (by decide) rfl (fun _ => by rw [List.length_replicate])).1

/-- C7: with the model loaded and an admitted, schema-valid request, if
the model's encode raises (returns an error), each endpoint catches it
and answers 500 with a human-readable detail message prefixing the
exception text; the handler total-functionally produces a response, so
the error never propagates. -/
theorem encode_failure_500 (m : EmbModel) (t : String) (texts : List String) (e e2 : String)
    (ht : validEmbedText t = true) (hts : validEmbedTexts texts = true)
    (he : m.encode t = .error e) (he2 : m.encodeBatch texts = .error e2) :
    (handleRequest openCfg ⟨some m⟩ (embedReq t)).status = 500
    ∧ (handleRequest openCfg ⟨some m⟩ (embedReq t)).body
        = .detailJson ("Failed to generate embedding: " ++ e)
    ∧ (handleRequest openCfg ⟨some m⟩ (batchReq texts)).status = 500
    ∧ (handleRequest openCfg ⟨some m⟩ (batchReq texts)).body
        = .detailJson ("Failed to generate embeddings: " ++ e2) := by
  refine ⟨?_, ?_, ?_, ?_⟩
  · rw [handleRequest_open_status, route_embed_valid _ _ ht]; simp [embed, he]
  · rw [handleRequest_open_body, route_embed_valid _ _ ht]; simp [embed, he]
  · rw [handleRequest_open_status, route_batch_valid _ _ hts]; simp [embed_batch, he2]
  · rw [handleRequest_open_body, route_batch_valid _ _ hts]; simp [embed_batch, he2]

/-- C7 witness: the always-raising model turns `POST /embed` with
`"hi"` into a 500 response carrying the exception message. -/
theorem encode_failure_500_witness :
    (handleRequest openCfg ⟨some failingModel⟩ (embedReq "hi")).status = 500
    ∧ (handleRequest openCfg ⟨some failingModel⟩ (embedReq "hi")).body
        = .detailJson ("Failed to generate embedding: " ++ "boom") :=
  ⟨(encode_failure_500 failingModel "hi" ["x"] "boom" "boom"
      (by decide) (by decide) rfl rfl).1,
    (encode_failure_500 failingModel "hi" ["x"] "boom" "boom"
      (by decide) (by decide) rfl rfl).2.1⟩

/-- C9: in the batch handler, an empty result sequence from the model
is reported with dimensionality 0 and a 200 response — the index-0
access is guarded by the conditional expression, so the handler does
not fault — while a non-empty result is reported with the length of its
first vector. -/
theorem batch_empty_result_dims (m : EmbModel) (texts : List String)
    (hts : validEmbedTexts texts = true) :
    (m.encodeBatch texts = .ok [] →
        (handleRequest openCfg ⟨some m⟩ (batchReq texts)).status = 200
        ∧ (handleRequest openCfg ⟨some m⟩ (batchReq texts)).body.batchDims = some 0)
    ∧ (∀ v vs, m.encodeBatch texts = .ok (v :: vs) →
        (handleRequest openCfg ⟨some m⟩ (batchReq texts)).body.batchDims = some v.length)
    ∧ batchDimensions [] = 0 := by
  refine ⟨?_, ?_, rfl⟩
  · intro h
    constructor
    · rw [handleRequest_open_status, route_batch_valid _ _ hts]; simp [embed_batch, h]
    · rw [handleRequest_open_body, route_batch_valid _ _ hts]
      simp [embed_batch, h, batchDimensions, Body.batchDims]
  · intro v vs h
    rw [handleRequest_open_body, route_batch_valid _ _ hts]
    simp [embed_batch, h, batchDimensions, Body.batchDims]

/-- C9 witness: a model whose batch encode returns the empty sequence
yields a 200 response reporting dimensionality 0. -/
theorem batch_empty_result_dims_witness :
    (handleRequest openCfg ⟨some emptyBatchModel⟩ (batchReq ["a"])).body.batchDims = some 0 :=
  ((batch_empty_result_dims emptyBatchModel ["a"] (by decide)).1 rfl).2

/-- C10: batch validation checks only that the sequence is non-empty:
the batch `[""]` containing an empty string passes `min_items=1` and is
forwarded to the model's encode (the response returns whatever encode
produced), even though the single-text endpoint rejects the empty
string at validation with 422 in every model state. -/
theorem batch_element_validation_gap (m : EmbModel) (st : ServiceState)
    (vs : List EmbeddingVector) (h : m.encodeBatch [""] = .ok vs) :
    validEmbedTexts [""] = true
    ∧ validEmbedText "" = false
    ∧ (handleRequest openCfg ⟨some m⟩ (batchReq [""])).status = 200
    ∧ (handleRequest openCfg ⟨some m⟩ (batchReq [""])).body.batchEmbeddings = some vs
    ∧ (handleRequest openCfg st (embedReq "")).status = 422 := by
  refine ⟨rfl, rfl, ?_, ?_, rfl⟩
  · rw [handleRequest_open_status, route_batch_valid _ [""] (by decide)]
    simp [embed_batch, h]
  · rw [handleRequest_open_body, route_batch_valid _ [""] (by decide)]
    simp [embed_batch, h, Body.batchEmbeddings]

/-- C10 witness: with the stand-in model, the batch `[""]` is admitted
and answered with 200. -/
theorem batch_element_validation_gap_witness :
    (handleRequest openCfg ⟨some constModel⟩ (batchReq [""])).status = 200 :=
  (batch_element_validation_gap constModel ⟨none⟩ [List.replicate 1024 0.0] rfl).2.2.1
